import Mathlib

/-!
Formal model of the request-instrumentation and graceful-shutdown core of the
jote HTTP helper library (package jote, file web.go).

The embedding follows the Go source closely:

* Pure string computations (metric exposition text, client-IP resolution) are
  translated as Lean functions over `String`.
* A request handler is modelled by the observable behaviour of one invocation:
  the sequence of `WriteHeader` calls it issues and whether it panics.
* Each instrumentation wrapper (`AddLoggingToMux`, `AddLoggingToMuxNoRC`,
  `AddLoggingToMuxWithCounter`) is translated as a function from the inner
  handler's behaviour and the request to an `Outcome`: the log records emitted,
  the number of `counter.Add(1)` calls, the status line actually sent to the
  client, whether a panic escapes the wrapper, and a small event trace that
  records the order of the side effects inside the wrapper.
* `RunMux` is modelled as a two-thread transition trace (main goroutine and the
  signal-watcher goroutine), with the one-shot channel `idleConnsClosed`
  rendered as an ordering constraint on traces.

The repository carries two revisions of the wrapper code: the documented
revision (src/unnamed/part_000) and an older one (src/web.go) whose
`AddLoggingToMuxWithCounter` leaves the recorded status zero-initialized and
whose deferred block does not write the 500 status.  Definitions carrying the
source names follow the documented revision; the older counter variant is
embedded separately as `addLoggingToMuxWithCounterV0`.
-/

/-- Numeric value of a list of decimal digit characters, most significant
first.  Models the accumulation loop of Go's dtoi. -/
def digitsToNat (l : List Char) : Nat :=
  l.foldl (fun a c => a * 10 + (c.toNat - 48)) 0

/-- Splits a character list on the dot character, keeping empty fields, as
Go's IPv4 field scanner does. -/
def splitOnDot : List Char → List (List Char)
  | [] => [[]]
  | c :: rest =>
    if c = '.' then [] :: splitOnDot rest
    else
      match splitOnDot rest with
      | [] => [[c]]
      | f :: fs => (c :: f) :: fs

/-- Parses one dotted-quad field the way Go's net.ParseIP does for IPv4:
nonempty, at most three characters, all decimal digits, no leading zero,
value at most 255. -/
def parseIPv4Field (l : List Char) : Option Nat :=
  match l with
  | [] => none
  | c :: rest =>
    if 3 < (c :: rest).length then none
    else if c = '0' ∧ rest ≠ [] then none
    else if (c :: rest).all Char.isDigit then
      let n := digitsToNat (c :: rest)
      if n ≤ 255 then some n else none
    else none

/-- An IPv4 address as four octet values. -/
structure IPv4 where
  a : Nat
  b : Nat
  c : Nat
  d : Nat
  deriving DecidableEq

/-- Model of Go's net.ParseIP restricted to IPv4 dotted-quad literals: the
input parses exactly when it is four valid fields separated by dots.  IPv6
literals are not modelled (no claim exercises them); every input that is not a
strict dotted quad — including host:port strings such as "9.9.9.9:443", which
net.ParseIP also rejects — yields `none`. -/
def parseIP (s : String) : Option IPv4 :=
  match (splitOnDot s.data).map parseIPv4Field with
  | [some a, some b, some c, some d] => some ⟨a, b, c, d⟩
  | _ => none

/-- Model of Go's net.IP.String for an IPv4 value: dotted decimal with no
leading zeros. -/
def ipString (p : IPv4) : String :=
  toString p.a ++ "." ++ toString p.b ++ "." ++ toString p.c ++ "." ++ toString p.d

/-- Request URL.  Only the path component is inspected by the code under
study (the metrics-path comparison r.URL.Path == "/metrics"); the other URL
components play no role in any claim and are omitted. -/
structure URL where
  path : String
  deriving DecidableEq

/-- An incoming HTTP request as seen by the instrumentation layer.  The two
header fields hold the result of r.Header.Get on the only two header keys the
code reads; a missing header reads as the empty string, exactly as in Go. -/
structure Request where
  xRealIP : String
  xForwardedFor : String
  remoteAddr : String
  url : URL
  deriving DecidableEq

/-- Embedding of HttpRequestGetIP (src/unnamed/part_000, lines 36-45):
X-Real-IP if nonempty, else X-Forwarded-For if nonempty, else the parsed
numeric form of RemoteAddr if it parses, else RemoteAddr itself. -/
def httpRequestGetIP (r : Request) : String :=
  if r.xRealIP ≠ "" then r.xRealIP
  else if r.xForwardedFor ≠ "" then r.xForwardedFor
  else
    match parseIP r.remoteAddr with
    | some pIP => ipString pIP
    | none => r.remoteAddr

/-- Embedding of the inline client-IP resolution block that
AddLoggingToMuxWithCounter uses (src/unnamed/part_000, lines 108-116; the same
block appears in src/web.go): start from RemoteAddr, take X-Real-IP when
nonempty, else replace RemoteAddr by its parsed form when it parses.  Note
that unlike HttpRequestGetIP this block never consults X-Forwarded-For. -/
def inlineGetIP (r : Request) : String :=
  if r.xRealIP ≠ "" then r.xRealIP
  else
    match parseIP r.remoteAddr with
    | some pIP => ipString pIP
    | none => r.remoteAddr

/-- First nonempty string of a list, empty when all are empty.  Used only to
phrase the specification's resolution order, for comparison with the code. -/
def firstNonEmpty : List String → String
  | [] => ""
  | s :: rest => if s = "" then firstNonEmpty rest else s

/-- Rendering of the parsed numeric form of an address, empty when the
address does not parse.  Specification-side helper. -/
def parsedIPString (a : String) : String :=
  match parseIP a with
  | some p => ipString p
  | none => ""

/-- Specification-side definition following the spec's words for client-IP
resolution: the first non-empty of X-Real-IP, X-Forwarded-For, the parsed
numeric form of the remote address, the raw remote address, else empty. -/
def specResolveIP (r : Request) : String :=
  firstNonEmpty [r.xRealIP, r.xForwardedFor, parsedIPString r.remoteAddr, r.remoteAddr]

/-- Observable behaviour of one invocation of the inner handler: the ordered
list of status codes it passes to WriteHeader, and the panic value when it
panics instead of returning (Go's recover yields a non-nil value, modelled as
`some` of a string description). -/
structure InnerBehavior where
  writeCalls : List Nat
  panics : Option String
  deriving DecidableEq

/-- One structured log record as emitted by logger.Info("webreq", ...).  The
status field is `none` for the NoRC variant, which logs no status; the err
field is the recovered panic value.  The duration field is wall-clock time
and is not modelled. -/
structure LogRecord where
  ip : String
  url : URL
  status : Option Nat
  err : Option String
  deriving DecidableEq

/-- Side-effect events inside one wrapper invocation, used to state in which
order the wrapper performs them. -/
inductive Ev where
  | innerDone
  | counterInc
  | logEmit
  deriving DecidableEq

/-- Observable outcome of one invocation of a wrapped handler. -/
structure Outcome where
  logs : List LogRecord
  counterDelta : Nat
  clientStatus : Nat
  escapedPanic : Option String
  trace : List Ev
  deriving DecidableEq

/-- Embedding of AddLoggingToMux (src/unnamed/part_000, lines 62-82).  The
loggingResponseWriter starts with rc = 200; each WriteHeader call forwards to
the real writer and overwrites rc; the deferred block recovers, writes 500
through the wrapper when a panic was recovered, skips logging for the metrics
path, and otherwise logs ip, url, status and the recovered value.  The status
the client sees is the first forwarded WriteHeader call, or the implicit 200
when none happens.  The recover call stops the unwinding, so no panic escapes
the wrapper. -/
def addLoggingToMux (next : Request → InnerBehavior) (r : Request) : Outcome :=
  let srcIP := httpRequestGetIP r
  let b := next r
  let re := b.panics
  let rc := if re.isSome then 500 else b.writeCalls.getLastD 200
  let sent := b.writeCalls ++ (if re.isSome then [500] else [])
  { logs :=
      if r.url.path = "/metrics" then []
      else [{ ip := srcIP, url := r.url, status := some rc, err := re }]
    counterDelta := 0
    clientStatus := sent.headD 200
    escapedPanic := none
    trace := Ev.innerDone :: (if r.url.path = "/metrics" then [] else [Ev.logEmit]) }

/-- Embedding of AddLoggingToMuxNoRC (src/unnamed/part_000, lines 85-101).
Same as addLoggingToMux but without the loggingResponseWriter: the deferred
block writes 500 directly to the real writer on a recovered panic, and the
log record carries no status field. -/
def addLoggingToMuxNoRC (next : Request → InnerBehavior) (r : Request) : Outcome :=
  let srcIP := httpRequestGetIP r
  let b := next r
  let re := b.panics
  let sent := b.writeCalls ++ (if re.isSome then [500] else [])
  { logs :=
      if r.url.path = "/metrics" then []
      else [{ ip := srcIP, url := r.url, status := none, err := re }]
    counterDelta := 0
    clientStatus := sent.headD 200
    escapedPanic := none
    trace := Ev.innerDone :: (if r.url.path = "/metrics" then [] else [Ev.logEmit]) }

/-- Embedding of AddLoggingToMuxWithCounter (src/unnamed/part_000, lines
105-134).  Resolves the client IP with the inline block (no X-Forwarded-For),
starts rc at 200, recovers and writes 500 on panic, returns early for the
metrics path, and otherwise calls counter.Add(1) and then logs. -/
def addLoggingToMuxWithCounter (next : Request → InnerBehavior) (r : Request) : Outcome :=
  let srcIP := inlineGetIP r
  let b := next r
  let re := b.panics
  let rc := if re.isSome then 500 else b.writeCalls.getLastD 200
  let sent := b.writeCalls ++ (if re.isSome then [500] else [])
  { logs :=
      if r.url.path = "/metrics" then []
      else [{ ip := srcIP, url := r.url, status := some rc, err := re }]
    counterDelta := if r.url.path = "/metrics" then 0 else 1
    clientStatus := sent.headD 200
    escapedPanic := none
    trace := Ev.innerDone ::
      (if r.url.path = "/metrics" then [] else [Ev.counterInc, Ev.logEmit]) }

/-- Embedding of the older AddLoggingToMuxWithCounter revision (src/web.go,
lines 102-127).  Differences from the documented revision: the
loggingResponseWriter is built without initializing rc, so the recorded
status starts at Go's zero value 0, and the deferred block does not write 500
on a recovered panic. -/
def addLoggingToMuxWithCounterV0 (next : Request → InnerBehavior) (r : Request) : Outcome :=
  let srcIP := inlineGetIP r
  let b := next r
  let re := b.panics
  let rc := b.writeCalls.getLastD 0
  { logs :=
      if r.url.path = "/metrics" then []
      else [{ ip := srcIP, url := r.url, status := some rc, err := re }]
    counterDelta := if r.url.path = "/metrics" then 0 else 1
    clientStatus := b.writeCalls.headD 200
    escapedPanic := none
    trace := Ev.innerDone ::
      (if r.url.path = "/metrics" then [] else [Ev.counterInc, Ev.logEmit]) }

/-- Embedding of the response body built by the handler AddMetrics registers
on "GET /metrics" (src/unnamed/part_000, lines 28-33): the precomputed metric
text followed by the decimal rendering of the counter's current value
(strconv.FormatUint base 10, rendered here by toString on Nat). -/
def addMetricsBody (name : String) (counterValue : Nat) : String :=
  let metricText :=
    "# TYPE " ++ name ++ "_http_requests_total counter\n" ++ name ++ "_http_requests_total "
  metricText ++ toString counterValue

/-- A request whose inner handler panics with value "boom" before writing
any header. -/
def nextPanic : Request → InnerBehavior := fun _ => ⟨[], some "boom"⟩

/-- An inner handler that returns normally without calling WriteHeader. -/
def nextNoop : Request → InnerBehavior := fun _ => ⟨[], none⟩

/-- A plain request to a non-metrics path with no proxy headers. -/
def rPlain : Request := ⟨"", "", "203.0.113.7:51123", ⟨"/a"⟩⟩

/-- A request to the metrics path with no proxy headers. -/
def rMetrics : Request := ⟨"", "", "203.0.113.7:51123", ⟨"/metrics"⟩⟩

/-- The specification's example request: no proxy headers, transport remote
address 9.9.9.9:443. -/
def r943 : Request := ⟨"", "", "9.9.9.9:443", ⟨"/a"⟩⟩

/-- The specification's example request with only X-Forwarded-For set. -/
def rXFF : Request := ⟨"", "5.6.7.8", "9.9.9.9:443", ⟨"/a"⟩⟩

/-- Observable events of one RunMux execution (src/unnamed/part_000, lines
138-168; identical in src/web.go, lines 129-159).  Main-goroutine events:
ListenAndServe returns, the non-ErrServerClosed error is logged, the RunMux
call returns.  Watcher-goroutine events: a termination signal is received,
srv.Shutdown is called, the Shutdown error is logged, the one-shot channel
idleConnsClosed is closed. -/
inductive REv where
  | listenReturn
  | listenErrLogged
  | sigReceived
  | shutdownCall
  | shutdownErrLogged
  | drainClosed
  | runReturn
  deriving DecidableEq

/-- Environment of one RunMux execution: what ListenAndServe returns (`some e`
an error such as a bind failure, `none` the expected http.ErrServerClosed),
whether a termination signal is ever delivered during the run, and what
srv.Shutdown returns. -/
structure RunEnv where
  listenOutcome : Option String
  signalArrives : Bool
  shutdownErr : Option String

/-- Event sequence of the main goroutine of RunMux, in program order:
ListenAndServe returns, its error is logged unless it is http.ErrServerClosed,
then (after the blocking receive from idleConnsClosed) RunMux returns. -/
def mainSeq (env : RunEnv) : List REv :=
  [REv.listenReturn] ++
    (match env.listenOutcome with
      | some _ => [REv.listenErrLogged]
      | none => []) ++
    [REv.runReturn]

/-- Event sequence of the signal-watcher goroutine, in program order: it
blocks on the signal channel (so produces no events when no signal arrives),
then calls srv.Shutdown, logs the Shutdown error when there is one, and
closes idleConnsClosed. -/
def watcherSeq (env : RunEnv) : List REv :=
  if env.signalArrives then
    [REv.sigReceived, REv.shutdownCall] ++
      (match env.shutdownErr with
        | some _ => [REv.shutdownErrLogged]
        | none => []) ++
      [REv.drainClosed]
  else []

/-- Interleaving of two event sequences, preserving the order within each. -/
inductive Merge : List REv → List REv → List REv → Prop where
  | nil : Merge [] [] []
  | left (a : REv) {as bs cs : List REv} : Merge as bs cs → Merge (a :: as) bs (a :: cs)
  | right (b : REv) {as bs cs : List REv} : Merge as bs cs → Merge as (b :: bs) (b :: cs)

/-- The list p is an initial segment of the list t. -/
def IsInit (p t : List REv) : Prop := ∃ s, p ++ s = t

/-- In the trace t, no occurrence of y comes before the first x: every initial
segment containing y also contains x.  For traces in which each event occurs
at most once (all traces of this model) this says x strictly precedes y
whenever y occurs. -/
def Precedes (x y : REv) (t : List REv) : Prop :=
  ∀ p, IsInit p t → y ∈ p → x ∈ p

/-- Boolean scan deciding Precedes on concrete traces: fails on meeting y,
succeeds on meeting x, succeeds at the end. -/
def afterCheck (x y : REv) : List REv → Bool
  | [] => true
  | e :: t => if e = y then false else if e = x then true else afterCheck x y t

/-- Synchronization constraints of RunMux: the blocking receive from the
one-shot channel means RunMux can return only after close(idleConnsClosed),
and in the normal path (ListenAndServe returning http.ErrServerClosed) the
listener can only return after the Shutdown call that triggers it. -/
def syncOK (env : RunEnv) (t : List REv) : Prop :=
  Precedes REv.drainClosed REv.runReturn t ∧
    (env.listenOutcome = none → Precedes REv.shutdownCall REv.listenReturn t)

/-- Valid (possibly still running) executions of RunMux: interleavings of an
initial segment of each goroutine's sequence, subject to the channel
synchronization. -/
def validRun (env : RunEnv) (t : List REv) : Prop :=
  ∃ m w, IsInit m (mainSeq env) ∧ IsInit w (watcherSeq env) ∧ Merge m w t ∧ syncOK env t

/-- Completed executions of RunMux: interleavings of the two full sequences,
subject to the channel synchronization. -/
def completeRun (env : RunEnv) (t : List REv) : Prop :=
  Merge (mainSeq env) (watcherSeq env) t ∧ syncOK env t

/-- Embedding of RunMuxSimple (src/unnamed/part_000, lines 171-181): after
building the server it returns whatever ListenAndServe returns, in particular
the bind error when binding fails. -/
def runMuxSimple (listenResult : Option String) : Option String := listenResult

/-- Environment of a normal run: listener closed by shutdown, a signal
arrives, shutdown succeeds. -/
def envSig : RunEnv := ⟨none, true, none⟩

/-- Completed trace of a normal run: the watcher handles the signal, then the
listener returns and RunMux returns. -/
def traceSig : List REv :=
  [REv.sigReceived, REv.shutdownCall, REv.drainClosed, REv.listenReturn, REv.runReturn]

/-- Environment where binding fails and no signal is ever delivered. -/
def envBindNoSig : RunEnv := ⟨some "listen tcp: bind: address already in use", false, none⟩

/-- Partial trace of a run whose bind failed and that is blocked waiting for
the drain-complete signal: the error was logged, nothing further happened. -/
def traceBindBlocked : List REv := [REv.listenReturn, REv.listenErrLogged]

/-- Environment where binding fails and a termination signal later arrives. -/
def envBindSig : RunEnv := ⟨some "listen tcp: bind: address already in use", true, none⟩

/-- Environment of a run where shutdown itself fails. -/
def envShutErr : RunEnv := ⟨none, true, some "context deadline exceeded"⟩

/-- Completed trace of a run with a failed bind after a signal arrives. -/
def traceBindSig : List REv := watcherSeq envBindSig ++ mainSeq envBindSig

theorem isInit_refl (t : List REv) : IsInit t t := ⟨[], List.append_nil t⟩

theorem isInit_nil (t : List REv) : IsInit [] t := ⟨t, rfl⟩

theorem isInit_trans {p q t : List REv} (h1 : IsInit p q) (h2 : IsInit q t) : IsInit p t := by
  obtain ⟨s1, rfl⟩ := h1
  obtain ⟨s2, rfl⟩ := h2
  exact ⟨s1 ++ s2, by simp⟩

theorem mem_of_isInit {x : REv} {p t : List REv} (h : IsInit p t) (hx : x ∈ p) : x ∈ t := by
  obtain ⟨s, rfl⟩ := h
  exact List.mem_append_left s hx

theorem not_mem_of_isInit {x : REv} {p t : List REv} (h : IsInit p t) (hx : x ∉ t) : x ∉ p :=
  fun hc => hx (mem_of_isInit h hc)

theorem count_le_of_isInit (x : REv) {p t : List REv} (h : IsInit p t) :
    p.count x ≤ t.count x := by
  obtain ⟨s, rfl⟩ := h
  simp [List.count_append]

theorem isInit_cons {p : List REv} {a : REv} {t : List REv} (h : IsInit p (a :: t)) :
    p = [] ∨ ∃ q, p = a :: q ∧ IsInit q t := by
  obtain ⟨s, hs⟩ := h
  cases p with
  | nil => exact Or.inl rfl
  | cons x xs =>
    rw [List.cons_append] at hs
    injection hs with h1 h2
    exact Or.inr ⟨xs, by rw [h1], ⟨s, h2⟩⟩

theorem merge_eq_of_right_nil {as bs cs : List REv} (h : Merge as bs cs) :
    bs = [] → cs = as := by
  induction h with
  | nil => intro _; rfl
  | left a h ih => intro hb; rw [ih hb]
  | right b h ih => intro hb; cases hb

theorem merge_nil_right_self (as : List REv) : Merge as [] as := by
  induction as with
  | nil => exact Merge.nil
  | cons a t ih => exact Merge.left a ih

theorem merge_append (as bs : List REv) : Merge as bs (bs ++ as) := by
  induction bs with
  | nil => simpa using merge_nil_right_self as
  | cons b t ih => exact Merge.right b ih

theorem count_merge (x : REv) {as bs cs : List REv} (h : Merge as bs cs) :
    cs.count x = as.count x + bs.count x := by
  induction h with
  | nil => rfl
  | left a h ih => simp only [List.count_cons, ih]; split <;> omega
  | right b h ih => simp only [List.count_cons, ih]; split <;> omega

theorem mem_merge_right {x : REv} {as bs cs : List REv} (h : Merge as bs cs) (hx : x ∈ bs) :
    x ∈ cs := by
  induction h with
  | nil => cases hx
  | left a h ih => exact List.mem_cons_of_mem _ (ih hx)
  | right b h ih =>
    rcases List.mem_cons.mp hx with h1 | h2
    · rw [h1]; exact List.mem_cons_self _ _
    · exact List.mem_cons_of_mem _ (ih h2)

theorem mem_merge {x : REv} {as bs cs : List REv} (h : Merge as bs cs) (hx : x ∈ cs) :
    x ∈ as ∨ x ∈ bs := by
  induction h with
  | nil => cases hx
  | left a h ih =>
    rcases List.mem_cons.mp hx with h1 | h2
    · exact Or.inl (by rw [h1]; exact List.mem_cons_self _ _)
    · rcases ih h2 with h3 | h3
      · exact Or.inl (List.mem_cons_of_mem _ h3)
      · exact Or.inr h3
  | right b h ih =>
    rcases List.mem_cons.mp hx with h1 | h2
    · exact Or.inr (by rw [h1]; exact List.mem_cons_self _ _)
    · rcases ih h2 with h3 | h3
      · exact Or.inl h3
      · exact Or.inr (List.mem_cons_of_mem _ h3)

theorem init_of_merge {as bs cs p : List REv} (h : Merge as bs cs) (hp : IsInit p cs) :
    ∃ pa pb, IsInit pa as ∧ IsInit pb bs ∧ Merge pa pb p := by
  induction h generalizing p with
  | nil =>
    obtain ⟨s, hs⟩ := hp
    obtain ⟨h1, h2⟩ := List.append_eq_nil.mp hs
    exact ⟨[], [], isInit_nil _, isInit_nil _, by rw [h1]; exact Merge.nil⟩
  | left a h ih =>
    rcases isInit_cons hp with rfl | ⟨q, rfl, hq⟩
    · exact ⟨[], [], isInit_nil _, isInit_nil _, Merge.nil⟩
    · obtain ⟨pa, pb, h1, h2, h3⟩ := ih hq
      obtain ⟨s, rfl⟩ := h1
      exact ⟨a :: pa, pb, ⟨s, rfl⟩, h2, Merge.left a h3⟩
  | right b h ih =>
    rcases isInit_cons hp with rfl | ⟨q, rfl, hq⟩
    · exact ⟨[], [], isInit_nil _, isInit_nil _, Merge.nil⟩
    · obtain ⟨pa, pb, h1, h2, h3⟩ := ih hq
      obtain ⟨s, rfl⟩ := h2
      exact ⟨pa, b :: pb, h1, ⟨s, rfl⟩, Merge.right b h3⟩

theorem precedes_of_afterCheck {x y : REv} :
    ∀ {t : List REv}, afterCheck x y t = true → Precedes x y t := by
  intro t
  induction t with
  | nil =>
    intro _ p hp hy
    obtain ⟨s, hs⟩ := hp
    obtain ⟨h1, _⟩ := List.append_eq_nil.mp hs
    rw [h1] at hy
    cases hy
  | cons e t ih =>
    intro hc p hp hy
    rcases isInit_cons hp with rfl | ⟨q, rfl, hq⟩
    · cases hy
    · by_cases hey : e = y
      · rw [afterCheck, if_pos hey] at hc
        cases hc
      · by_cases hex : e = x
        · rw [hex]
          exact List.mem_cons_self _ _
        · rw [afterCheck, if_neg hey, if_neg hex] at hc
          have hy' : y ∈ q := by
            rcases List.mem_cons.mp hy with h1 | h1
            · exact absurd h1.symm hey
            · exact h1
          exact List.mem_cons_of_mem _ (ih hc q hq hy')

theorem precedes_isInit {x y : REv} {p t : List REv} (h : Precedes x y t) (hp : IsInit p t) :
    Precedes x y p :=
  fun q hq hy => h q (isInit_trans hq hp) hy

theorem precedes_merge_right {x y : REv} {as bs cs : List REv} (h : Merge as bs cs)
    (hy : y ∉ as) (hb : Precedes x y bs) : Precedes x y cs := by
  intro p hp hyp
  obtain ⟨pa, pb, h1, h2, h3⟩ := init_of_merge h hp
  rcases mem_merge h3 hyp with hA | hB
  · exact absurd (mem_of_isInit h1 hA) hy
  · exact mem_merge_right h3 (hb pb h2 hB)

theorem shutdownCall_not_mem_mainSeq (env : RunEnv) : REv.shutdownCall ∉ mainSeq env := by
  rcases env with ⟨lo, sg, se⟩
  cases lo <;> simp [mainSeq]

theorem drainClosed_not_mem_mainSeq (env : RunEnv) : REv.drainClosed ∉ mainSeq env := by
  rcases env with ⟨lo, sg, se⟩
  cases lo <;> simp [mainSeq]

theorem mainSeq_count_shutdownCall (env : RunEnv) :
    (mainSeq env).count REv.shutdownCall = 0 :=
  List.count_eq_zero.mpr (shutdownCall_not_mem_mainSeq env)

theorem watcherSeq_count_shutdownCall (env : RunEnv) :
    (watcherSeq env).count REv.shutdownCall ≤ 1 := by
  rcases env with ⟨lo, sg, se⟩
  cases sg <;> cases se <;> simp [watcherSeq]

theorem watcher_precedes_sig_shut (env : RunEnv) :
    Precedes REv.sigReceived REv.shutdownCall (watcherSeq env) := by
  apply precedes_of_afterCheck
  rcases env with ⟨lo, sg, se⟩
  cases sg <;> cases se <;> simp [watcherSeq] <;> decide

theorem watcher_precedes_shut_drain (env : RunEnv) :
    Precedes REv.shutdownCall REv.drainClosed (watcherSeq env) := by
  apply precedes_of_afterCheck
  rcases env with ⟨lo, sg, se⟩
  cases sg <;> cases se <;> simp [watcherSeq] <;> decide

theorem valid_precedes_drain_run {env : RunEnv} {t : List REv} (h : validRun env t) :
    Precedes REv.drainClosed REv.runReturn t := by
  obtain ⟨m, w, hm, hw, hmg, hsync⟩ := h
  exact hsync.1

theorem valid_precedes_sig_shut {env : RunEnv} {t : List REv} (h : validRun env t) :
    Precedes REv.sigReceived REv.shutdownCall t := by
  obtain ⟨m, w, hm, hw, hmg, hsync⟩ := h
  exact precedes_merge_right hmg
    (not_mem_of_isInit hm (shutdownCall_not_mem_mainSeq env))
    (precedes_isInit (watcher_precedes_sig_shut env) hw)

theorem valid_precedes_shut_drain {env : RunEnv} {t : List REv} (h : validRun env t) :
    Precedes REv.shutdownCall REv.drainClosed t := by
  obtain ⟨m, w, hm, hw, hmg, hsync⟩ := h
  exact precedes_merge_right hmg
    (not_mem_of_isInit hm (drainClosed_not_mem_mainSeq env))
    (precedes_isInit (watcher_precedes_shut_drain env) hw)

theorem valid_count_shut {env : RunEnv} {t : List REv} (h : validRun env t) :
    t.count REv.shutdownCall ≤ 1 := by
  obtain ⟨m, w, hm, hw, hmg, hsync⟩ := h
  have hc := count_merge REv.shutdownCall hmg
  have h1 : m.count REv.shutdownCall ≤ 0 := by
    have := count_le_of_isInit REv.shutdownCall hm
    rw [mainSeq_count_shutdownCall] at this
    exact this
  have h2 : w.count REv.shutdownCall ≤ 1 :=
    le_trans (count_le_of_isInit REv.shutdownCall hw) (watcherSeq_count_shutdownCall env)
  omega

theorem valid_run_return_mem {env : RunEnv} {t : List REv} (h : validRun env t)
    (hr : REv.runReturn ∈ t) :
    REv.sigReceived ∈ t ∧ REv.shutdownCall ∈ t ∧ REv.drainClosed ∈ t := by
  have hd : REv.drainClosed ∈ t := valid_precedes_drain_run h t (isInit_refl t) hr
  have hs : REv.shutdownCall ∈ t := valid_precedes_shut_drain h t (isInit_refl t) hd
  have hg : REv.sigReceived ∈ t := valid_precedes_sig_shut h t (isInit_refl t) hs
  exact ⟨hg, hs, hd⟩

theorem valid_no_signal_no_return {env : RunEnv} {t : List REv} (h : validRun env t)
    (hs : env.signalArrives = false) : REv.runReturn ∉ t := by
  intro hr
  have hd : REv.drainClosed ∈ t := valid_precedes_drain_run h t (isInit_refl t) hr
  obtain ⟨m, w, hm, hw, hmg, hsync⟩ := h
  have hwnil : watcherSeq env = [] := by simp [watcherSeq, hs]
  have hw0 : w = [] := by
    obtain ⟨s, hwe⟩ := hw
    rw [hwnil] at hwe
    exact (List.append_eq_nil.mp hwe).1
  rw [hw0] at hmg
  rw [merge_eq_of_right_nil hmg rfl] at hd
  exact drainClosed_not_mem_mainSeq env (mem_of_isInit hm hd)

theorem validRun_traceSig : validRun envSig traceSig := by
  refine ⟨mainSeq envSig, watcherSeq envSig, isInit_refl _, isInit_refl _, ?_, ?_, ?_⟩
  · have h := merge_append (mainSeq envSig) (watcherSeq envSig)
    have he : watcherSeq envSig ++ mainSeq envSig = traceSig := by decide
    rw [he] at h
    exact h
  · exact precedes_of_afterCheck (by decide)
  · intro _
    exact precedes_of_afterCheck (by decide)

theorem validRun_bindBlocked (e : String) :
    validRun ⟨some e, false, none⟩ traceBindBlocked := by
  refine ⟨traceBindBlocked, [], ⟨[REv.runReturn], rfl⟩, isInit_nil _,
    merge_nil_right_self traceBindBlocked, ?_, ?_⟩
  · exact precedes_of_afterCheck (by decide)
  · intro hlo
    cases hlo

theorem completeRun_after_signal (lo se : Option String) :
    completeRun ⟨lo, true, se⟩ (watcherSeq ⟨lo, true, se⟩ ++ mainSeq ⟨lo, true, se⟩) ∧
    REv.runReturn ∈ watcherSeq ⟨lo, true, se⟩ ++ mainSeq ⟨lo, true, se⟩ := by
  refine ⟨⟨merge_append _ _, ?_, ?_⟩, ?_⟩
  · apply precedes_of_afterCheck
    cases lo <;> cases se <;> simp [watcherSeq, mainSeq] <;> decide
  · intro hlo
    apply precedes_of_afterCheck
    cases lo <;> cases se <;> simp_all [watcherSeq, mainSeq] <;> decide
  · cases lo <;> cases se <;> simp [watcherSeq, mainSeq]

theorem length_dot : ("." : String).length = 1 := rfl

theorem ipString_ne_empty (p : IPv4) : ipString p ≠ "" := by
  intro h
  have hl := congrArg String.length h
  simp [ipString, String.length_append, length_dot] at hl

theorem getIP_eq_spec (r : Request) : httpRequestGetIP r = specResolveIP r := by
  by_cases h1 : r.xRealIP = ""
  · by_cases h2 : r.xForwardedFor = ""
    · cases hp : parseIP r.remoteAddr with
      | some p =>
        simp [httpRequestGetIP, specResolveIP, parsedIPString, firstNonEmpty, h1, h2, hp,
          ipString_ne_empty p]
      | none =>
        simp only [httpRequestGetIP, specResolveIP, parsedIPString, firstNonEmpty, h1, h2, hp]
        by_cases h3 : r.remoteAddr = "" <;> simp [h1, h2, h3]
    · simp [httpRequestGetIP, specResolveIP, firstNonEmpty, h1, h2]
  · simp [httpRequestGetIP, specResolveIP, firstNonEmpty, h1]

theorem inlineGetIP_eq_firstNonEmpty (r : Request) :
    inlineGetIP r = firstNonEmpty [r.xRealIP, parsedIPString r.remoteAddr, r.remoteAddr] := by
  by_cases h1 : r.xRealIP = ""
  · cases hp : parseIP r.remoteAddr with
    | some p =>
      simp [inlineGetIP, parsedIPString, firstNonEmpty, h1, hp, ipString_ne_empty p]
    | none =>
      simp only [inlineGetIP, parsedIPString, firstNonEmpty, h1, hp]
      by_cases h3 : r.remoteAddr = "" <;> simp [h1, h3]
  · simp [inlineGetIP, firstNonEmpty, h1]

/-- Claim C1, counterexample to the claim as stated: a request to the metrics
path whose inner handler panics is recovered, but the wrapper emits no log
record at all, not exactly one as the claim requires of every panicking
request. -/
theorem C1_metrics_panic_unlogged :
    (nextPanic rMetrics).panics = some "boom" ∧
    (addLoggingToMux nextPanic rMetrics).logs = [] ∧
    ¬ (addLoggingToMux nextPanic rMetrics).logs.length = 1 := by
  refine ⟨rfl, ?_, ?_⟩ <;> decide

/-- Claim C1, amended: for every request whose inner handler panics, each
instrumented wrapper recovers the panic so it never escapes, and sends the
client a 500 response when no header was written before the panic; when the
request path is not the metrics path, exactly one log record is emitted and
its err field is the recovered non-nil panic value, while for the metrics
path no log record is emitted. -/
theorem C1_panic_recovery (next : Request → InnerBehavior) (r : Request) (v : String)
    (hp : (next r).panics = some v) :
    ((addLoggingToMux next r).escapedPanic = none ∧
      (addLoggingToMuxNoRC next r).escapedPanic = none ∧
      (addLoggingToMuxWithCounter next r).escapedPanic = none) ∧
    ((next r).writeCalls = [] →
      (addLoggingToMux next r).clientStatus = 500 ∧
      (addLoggingToMuxNoRC next r).clientStatus = 500 ∧
      (addLoggingToMuxWithCounter next r).clientStatus = 500) ∧
    (r.url.path ≠ "/metrics" →
      (addLoggingToMux next r).logs.map LogRecord.err = [some v] ∧
      (addLoggingToMuxNoRC next r).logs.map LogRecord.err = [some v] ∧
      (addLoggingToMuxWithCounter next r).logs.map LogRecord.err = [some v]) ∧
    (r.url.path = "/metrics" →
      (addLoggingToMux next r).logs = [] ∧
      (addLoggingToMuxNoRC next r).logs = [] ∧
      (addLoggingToMuxWithCounter next r).logs = []) := by
  refine ⟨⟨rfl, rfl, rfl⟩, ?_, ?_, ?_⟩
  · intro hw
    refine ⟨?_, ?_, ?_⟩ <;>
      simp [addLoggingToMux, addLoggingToMuxNoRC, addLoggingToMuxWithCounter, hp, hw]
  · intro hm
    refine ⟨?_, ?_, ?_⟩ <;>
      simp [addLoggingToMux, addLoggingToMuxNoRC, addLoggingToMuxWithCounter, hp, hm]
  · intro hm
    refine ⟨?_, ?_, ?_⟩ <;>
      simp [addLoggingToMux, addLoggingToMuxNoRC, addLoggingToMuxWithCounter, hm]

/-- Claim C1, witness: instantiation of the amended theorem at a panicking
handler and a non-metrics request. -/
theorem C1_panic_recovery_witness :
    (nextPanic rPlain).panics = some "boom" ∧
    (((addLoggingToMux nextPanic rPlain).escapedPanic = none ∧
        (addLoggingToMuxNoRC nextPanic rPlain).escapedPanic = none ∧
        (addLoggingToMuxWithCounter nextPanic rPlain).escapedPanic = none) ∧
      ((nextPanic rPlain).writeCalls = [] →
        (addLoggingToMux nextPanic rPlain).clientStatus = 500 ∧
        (addLoggingToMuxNoRC nextPanic rPlain).clientStatus = 500 ∧
        (addLoggingToMuxWithCounter nextPanic rPlain).clientStatus = 500) ∧
      (rPlain.url.path ≠ "/metrics" →
        (addLoggingToMux nextPanic rPlain).logs.map LogRecord.err = [some "boom"] ∧
        (addLoggingToMuxNoRC nextPanic rPlain).logs.map LogRecord.err = [some "boom"] ∧
        (addLoggingToMuxWithCounter nextPanic rPlain).logs.map LogRecord.err = [some "boom"]) ∧
      (rPlain.url.path = "/metrics" →
        (addLoggingToMux nextPanic rPlain).logs = [] ∧
        (addLoggingToMuxNoRC nextPanic rPlain).logs = [] ∧
        (addLoggingToMuxWithCounter nextPanic rPlain).logs = [])) :=
  ⟨rfl, C1_panic_recovery nextPanic rPlain "boom" rfl⟩

/-- Claim C2: for every request to the metrics path, none of the instrumented
wrappers emits a log record, and the counting variant does not touch the
shared counter; this holds for every inner-handler behaviour, panicking or
not. -/
theorem C2_metrics_suppressed (next : Request → InnerBehavior) (r : Request)
    (h : r.url.path = "/metrics") :
    (addLoggingToMux next r).logs = [] ∧
    (addLoggingToMuxNoRC next r).logs = [] ∧
    (addLoggingToMuxWithCounter next r).logs = [] ∧
    (addLoggingToMuxWithCounter next r).counterDelta = 0 := by
  refine ⟨?_, ?_, ?_, ?_⟩ <;>
    simp [addLoggingToMux, addLoggingToMuxNoRC, addLoggingToMuxWithCounter, h]

/-- Claim C2, witness: instantiation at a panicking handler on the metrics
path. -/
theorem C2_metrics_suppressed_witness :
    rMetrics.url.path = "/metrics" ∧
    ((addLoggingToMux nextPanic rMetrics).logs = [] ∧
      (addLoggingToMuxNoRC nextPanic rMetrics).logs = [] ∧
      (addLoggingToMuxWithCounter nextPanic rMetrics).logs = [] ∧
      (addLoggingToMuxWithCounter nextPanic rMetrics).counterDelta = 0) :=
  ⟨rfl, C2_metrics_suppressed nextPanic rMetrics rfl⟩

/-- Claim C3: in AddLoggingToMuxWithCounter, every request to a non-metrics
path makes exactly one counter increment, and the wrapper's event order is
exactly inner handler done, then counter increment, then log emission — so
the increment happens after the inner handler returned or panicked and
before the log record is emitted.  The inner behaviour is arbitrary, covering
both normal return and recovered panic. -/
theorem C3_counter_once (next : Request → InnerBehavior) (r : Request)
    (h : r.url.path ≠ "/metrics") :
    (addLoggingToMuxWithCounter next r).counterDelta = 1 ∧
    (addLoggingToMuxWithCounter next r).trace = [Ev.innerDone, Ev.counterInc, Ev.logEmit] ∧
    (addLoggingToMuxWithCounter next r).logs.length = 1 := by
  refine ⟨?_, ?_, ?_⟩ <;> simp [addLoggingToMuxWithCounter, h]

/-- Claim C3, witness: instantiation at a panicking handler on a non-metrics
path. -/
theorem C3_counter_once_witness :
    rPlain.url.path ≠ "/metrics" ∧
    ((addLoggingToMuxWithCounter nextPanic rPlain).counterDelta = 1 ∧
      (addLoggingToMuxWithCounter nextPanic rPlain).trace =
        [Ev.innerDone, Ev.counterInc, Ev.logEmit] ∧
      (addLoggingToMuxWithCounter nextPanic rPlain).logs.length = 1) :=
  ⟨by decide, C3_counter_once nextPanic rPlain (by decide)⟩

/-- Claim C4: evaluation at the failing input.  In the src/web.go revision of
AddLoggingToMuxWithCounter the response-sink status is zero-initialized, so a
handler that returns normally without calling WriteHeader gets status 0
logged, not 200 as the claim (and the documented revision, shown alongside)
requires. -/
theorem C4_zero_status_logged :
    (addLoggingToMuxWithCounterV0 nextNoop rPlain).logs.map LogRecord.status = [some 0] ∧
    (addLoggingToMuxWithCounter nextNoop rPlain).logs.map LogRecord.status = [some 200] ∧
    (addLoggingToMux nextNoop rPlain).logs.map LogRecord.status = [some 200] := by
  refine ⟨?_, ?_, ?_⟩ <;> decide

/-- Claim C5, counterexample to the claim as stated: with no proxy headers
and transport address 9.9.9.9:443 the resolved IP is the raw 9.9.9.9:443
(host:port does not parse as an IP), not 9.9.9.9; and the counter-bearing
variant ignores X-Forwarded-For, logging the raw transport address instead of
5.6.7.8. -/
theorem C5_ip_examples_refuted :
    httpRequestGetIP r943 = "9.9.9.9:443" ∧
    ¬ httpRequestGetIP r943 = "9.9.9.9" ∧
    (addLoggingToMuxWithCounter nextNoop rXFF).logs.map LogRecord.ip = ["9.9.9.9:443"] := by
  refine ⟨?_, ?_, ?_⟩ <;> decide

/-- Claim C5, amended: HttpRequestGetIP returns the first non-empty of
X-Real-IP, X-Forwarded-For, the parsed numeric form of the remote address,
the raw remote address, else the empty string, and is the resolution step of
AddLoggingToMux and AddLoggingToMuxNoRC; AddLoggingToMuxWithCounter uses the
inline resolution, which skips X-Forwarded-For.  With only X-Forwarded-For
set to 5.6.7.8, HttpRequestGetIP resolves 5.6.7.8; with no headers and remote
address 9.9.9.9:443, the parse fails and the raw 9.9.9.9:443 is resolved. -/
theorem C5_ip_resolution (next : Request → InnerBehavior) (r : Request)
    (h : r.url.path ≠ "/metrics") :
    httpRequestGetIP r = specResolveIP r ∧
    (addLoggingToMux next r).logs.map LogRecord.ip = [httpRequestGetIP r] ∧
    (addLoggingToMuxNoRC next r).logs.map LogRecord.ip = [httpRequestGetIP r] ∧
    (addLoggingToMuxWithCounter next r).logs.map LogRecord.ip = [inlineGetIP r] ∧
    inlineGetIP r = firstNonEmpty [r.xRealIP, parsedIPString r.remoteAddr, r.remoteAddr] ∧
    httpRequestGetIP r943 = "9.9.9.9:443" ∧
    httpRequestGetIP rXFF = "5.6.7.8" := by
  refine ⟨getIP_eq_spec r, ?_, ?_, ?_, inlineGetIP_eq_firstNonEmpty r, by decide, by decide⟩ <;>
    simp [addLoggingToMux, addLoggingToMuxNoRC, addLoggingToMuxWithCounter, h]

/-- Claim C5, witness: instantiation at a concrete non-metrics request. -/
theorem C5_ip_resolution_witness :
    rXFF.url.path ≠ "/metrics" ∧
    (httpRequestGetIP rXFF = specResolveIP rXFF ∧
      (addLoggingToMux nextNoop rXFF).logs.map LogRecord.ip = [httpRequestGetIP rXFF] ∧
      (addLoggingToMuxNoRC nextNoop rXFF).logs.map LogRecord.ip = [httpRequestGetIP rXFF] ∧
      (addLoggingToMuxWithCounter nextNoop rXFF).logs.map LogRecord.ip = [inlineGetIP rXFF] ∧
      inlineGetIP rXFF =
        firstNonEmpty [rXFF.xRealIP, parsedIPString rXFF.remoteAddr, rXFF.remoteAddr] ∧
      httpRequestGetIP r943 = "9.9.9.9:443" ∧
      httpRequestGetIP rXFF = "5.6.7.8") :=
  ⟨by decide, C5_ip_resolution nextNoop rXFF (by decide)⟩

/-- Claim C9: the body served by the handler AddMetrics registers is exactly
the TYPE comment line followed by the named counter and the decimal rendering
of its current value; with name api and counter value 42 it is exactly the
spec's example string. -/
theorem C9_metrics_text :
    (∀ (name : String) (v : Nat),
      addMetricsBody name v =
        "# TYPE " ++ name ++ "_http_requests_total counter\n" ++ name ++
          "_http_requests_total " ++ toString v) ∧
    addMetricsBody "api" 42 =
      "# TYPE api_http_requests_total counter\napi_http_requests_total 42" :=
  ⟨fun _ _ => rfl, by decide⟩

/-- Claim C6: in every execution of RunMux the shutdown call occurs at most
once, every occurrence is strictly after the signal receipt and strictly
before the close of the drain-complete channel, and the RunMux return occurs
only after that close. -/
theorem C6_shutdown_ordering (env : RunEnv) (t : List REv) (h : validRun env t) :
    t.count REv.shutdownCall ≤ 1 ∧
    Precedes REv.sigReceived REv.shutdownCall t ∧
    Precedes REv.shutdownCall REv.drainClosed t ∧
    Precedes REv.drainClosed REv.runReturn t :=
  ⟨valid_count_shut h, valid_precedes_sig_shut h, valid_precedes_shut_drain h,
    valid_precedes_drain_run h⟩

/-- Claim C6, witness: instantiation at the completed trace of a normal
signal-terminated run. -/
theorem C6_shutdown_ordering_witness :
    validRun envSig traceSig ∧
    (traceSig.count REv.shutdownCall ≤ 1 ∧
      Precedes REv.sigReceived REv.shutdownCall traceSig ∧
      Precedes REv.shutdownCall REv.drainClosed traceSig ∧
      Precedes REv.drainClosed REv.runReturn traceSig) :=
  ⟨validRun_traceSig, C6_shutdown_ordering envSig traceSig validRun_traceSig⟩

/-- Claim C7, counterexample to the claim as stated: when the bind fails and
no termination signal is ever delivered, no execution of RunMux contains its
return — RunMux does not terminate its run on a bind failure, it blocks
waiting for the drain-complete channel. -/
theorem C7_bind_blocks :
    ¬ ∃ t, validRun envBindNoSig t ∧ REv.runReturn ∈ t := by
  rintro ⟨t, hv, hr⟩
  exact valid_no_signal_no_return hv rfl hr

/-- Claim C7, amended: RunMuxSimple returns the bind error to its caller
directly; RunMux logs the bind error (the logging event is reached while the
run is otherwise blocked), but does not terminate its run — no execution
without a signal contains its return — and once a termination signal arrives
the run completes and returns. -/
theorem C7_bind_failure (e : String) :
    runMuxSimple (some e) = some e ∧
    (validRun ⟨some e, false, none⟩ traceBindBlocked ∧
      REv.listenErrLogged ∈ traceBindBlocked) ∧
    (∀ t, validRun ⟨some e, false, none⟩ t → REv.runReturn ∉ t) ∧
    (completeRun ⟨some e, true, none⟩
        (watcherSeq ⟨some e, true, none⟩ ++ mainSeq ⟨some e, true, none⟩) ∧
      REv.runReturn ∈ watcherSeq ⟨some e, true, none⟩ ++ mainSeq ⟨some e, true, none⟩) :=
  ⟨rfl, ⟨validRun_bindBlocked e, by decide⟩,
    fun t hv => valid_no_signal_no_return hv rfl,
    completeRun_after_signal (some e) none⟩

/-- Claim C7, witness: instantiation at a concrete bind error, applying the
blocking part to the concrete blocked trace. -/
theorem C7_bind_failure_witness :
    runMuxSimple (some "listen tcp: bind: address already in use") =
      some "listen tcp: bind: address already in use" ∧
    REv.runReturn ∉ traceBindBlocked := by
  have h := C7_bind_failure "listen tcp: bind: address already in use"
  exact ⟨h.1, h.2.2.1 traceBindBlocked (validRun_bindBlocked _)⟩

/-- Claim C8: when the shutdown call performed after signal receipt returns
an error, the watcher logs that error strictly before closing the
drain-complete channel, both events occur, and a completed execution in which
RunMux returns exists regardless — the error does not block the terminal
state. -/
theorem C8_shutdown_error (env : RunEnv) (hs : env.signalArrives = true) (e : String)
    (he : env.shutdownErr = some e) :
    Precedes REv.shutdownErrLogged REv.drainClosed (watcherSeq env) ∧
    REv.shutdownErrLogged ∈ watcherSeq env ∧
    REv.drainClosed ∈ watcherSeq env ∧
    completeRun env (watcherSeq env ++ mainSeq env) ∧
    REv.runReturn ∈ watcherSeq env ++ mainSeq env := by
  rcases env with ⟨lo, sg, se⟩
  cases hs
  cases he
  have hc := completeRun_after_signal lo (some e)
  refine ⟨?_, ?_, ?_, hc.1, hc.2⟩
  · apply precedes_of_afterCheck
    cases lo <;> simp [watcherSeq] <;> decide
  · cases lo <;> simp [watcherSeq]
  · cases lo <;> simp [watcherSeq]

/-- Claim C8, witness: instantiation at a run whose shutdown call fails. -/
theorem C8_shutdown_error_witness :
    envShutErr.signalArrives = true ∧
    envShutErr.shutdownErr = some "context deadline exceeded" ∧
    (Precedes REv.shutdownErrLogged REv.drainClosed (watcherSeq envShutErr) ∧
      REv.shutdownErrLogged ∈ watcherSeq envShutErr ∧
      REv.drainClosed ∈ watcherSeq envShutErr ∧
      completeRun envShutErr (watcherSeq envShutErr ++ mainSeq envShutErr) ∧
      REv.runReturn ∈ watcherSeq envShutErr ++ mainSeq envShutErr) :=
  ⟨rfl, rfl, C8_shutdown_error envShutErr rfl "context deadline exceeded" rfl⟩

/-- Claim C10: every execution of RunMux that contains the RunMux return also
contains, before it, the signal receipt, the shutdown call and the channel
close — there is no return path around the drain-complete wait — and in any
environment where no signal ever arrives, including one whose listener
failed at bind time, no execution contains the return at all. -/
theorem C10_return_gated (env : RunEnv) (t : List REv) (h : validRun env t) :
    (REv.runReturn ∈ t →
      REv.sigReceived ∈ t ∧ REv.shutdownCall ∈ t ∧ REv.drainClosed ∈ t ∧
      Precedes REv.sigReceived REv.shutdownCall t ∧
      Precedes REv.shutdownCall REv.drainClosed t ∧
      Precedes REv.drainClosed REv.runReturn t) ∧
    (env.signalArrives = false → REv.runReturn ∉ t) :=
  ⟨fun hr =>
      ⟨(valid_run_return_mem h hr).1, (valid_run_return_mem h hr).2.1,
        (valid_run_return_mem h hr).2.2, valid_precedes_sig_shut h,
        valid_precedes_shut_drain h, valid_precedes_drain_run h⟩,
    fun hs => valid_no_signal_no_return h hs⟩

/-- Claim C10, witness: instantiation at the blocked trace of a run whose
bind failed and that received no signal. -/
theorem C10_return_gated_witness :
    validRun envBindNoSig traceBindBlocked ∧
    ((REv.runReturn ∈ traceBindBlocked →
        REv.sigReceived ∈ traceBindBlocked ∧ REv.shutdownCall ∈ traceBindBlocked ∧
        REv.drainClosed ∈ traceBindBlocked ∧
        Precedes REv.sigReceived REv.shutdownCall traceBindBlocked ∧
        Precedes REv.shutdownCall REv.drainClosed traceBindBlocked ∧
        Precedes REv.drainClosed REv.runReturn traceBindBlocked) ∧
      (envBindNoSig.signalArrives = false → REv.runReturn ∉ traceBindBlocked)) :=
  ⟨validRun_bindBlocked _,
    C10_return_gated envBindNoSig traceBindBlocked (validRun_bindBlocked _)⟩
